import Mathlib

/-!
Shallow embedding of the `lez-multisig-framework` governance core.

The data model and voting engine are translated from
`multisig_core/src/lib.rs` (structs `MultisigState` and `Proposal`, the
`approve` / `reject` / `has_threshold` / `is_dead` methods, and the three
PDA seed derivations).  The instruction handlers are translated from
`multisig_program/src/create_multisig.rs` and `approve.rs`.  The
`execute.rs` and `reject.rs` files present in the tree are a superseded
historical variant (they reference `ProposalAction`,
`MultisigState::get_proposal_mut` and `clear_all_proposals`, none of which
exist in `multisig_core`); for those two handlers the final-design record
plumbing is modelled from the spec, while every guard and every config
mutation is taken verbatim from the corresponding lines of `execute.rs`
and `reject.rs`.

Rust `assert!` / `expect` failures abort the whole instruction with no
state change, so every handler is embedded as a function into `Option`:
`none` models an aborted instruction, `some` carries the records that
would be written back.
-/

namespace Multisig

/-- Byte arrays `[u8; 32]` are modelled as functions from `Fin 32` to `Nat`. -/
abbrev Bytes32 := Fin 32 → Nat

/-- Equality of 32-byte arrays is decided pointwise. -/
instance : DecidableEq Bytes32 :=
  fun a b => decidable_of_iff (∀ i : Fin 32, a i = b i) funext_iff.symm

/-- The all-zero byte array, used as a `getD` fallback. -/
def zero32 : Bytes32 := fun _ => 0

/-- Program identifiers `[u32; 8]` (from `nssa_core`), modelled pointwise. -/
abbrev ProgramId := Fin 8 → Nat

instance : DecidableEq ProgramId :=
  fun a b => decidable_of_iff (∀ i : Fin 8, a i = b i) funext_iff.symm

/-- Serialized instruction data for a target program (`Vec<u32>` in the source). -/
abbrev InstructionData := List Nat

/-- Proposal lifecycle status (`multisig_core/src/lib.rs`, `enum ProposalStatus`). -/
inductive ProposalStatus where
  | Active
  | Executed
  | Rejected
  | Cancelled
deriving DecidableEq

/-- Configuration change action (`multisig_core/src/lib.rs`, `enum ConfigAction`). -/
inductive ConfigAction where
  | AddMember (new_member : Bytes32)
  | RemoveMember (member : Bytes32)
  | ChangeThreshold (new_threshold : Nat)
deriving DecidableEq

/-- A proposal record (`multisig_core/src/lib.rs`, `struct Proposal`), stored in
its own PDA account in the final design. -/
structure Proposal where
  index : Nat
  proposer : Bytes32
  multisig_create_key : Bytes32
  target_program_id : ProgramId
  target_instruction_data : InstructionData
  target_account_count : Nat
  pda_seeds : List Bytes32
  authorized_indices : List Nat
  approved : List Bytes32
  rejected : List Bytes32
  status : ProposalStatus
  config_action : Option ConfigAction
deriving DecidableEq

/-- The per-instance multisig record (`multisig_core/src/lib.rs`,
`struct MultisigState`). -/
structure MultisigState where
  create_key : Bytes32
  threshold : Nat
  member_count : Nat
  members : List Bytes32
  transaction_index : Nat
deriving DecidableEq

/-- Constructor `Proposal::new`: a delegated-call proposal, proposer
auto-approved, status `Active`, no config action. -/
def Proposal.new (index : Nat) (proposer : Bytes32) (multisig_create_key : Bytes32)
    (target_program_id : ProgramId) (target_instruction_data : InstructionData)
    (target_account_count : Nat) (pda_seeds : List Bytes32)
    (authorized_indices : List Nat) : Proposal :=
  { index := index
    proposer := proposer
    multisig_create_key := multisig_create_key
    target_program_id := target_program_id
    target_instruction_data := target_instruction_data
    target_account_count := target_account_count
    pda_seeds := pda_seeds
    authorized_indices := authorized_indices
    approved := [proposer]
    rejected := []
    status := ProposalStatus.Active
    config_action := none }

/-- Constructor `Proposal::new_config`: a config-change proposal with zeroed
delegated-call fields. -/
def Proposal.new_config (index : Nat) (proposer : Bytes32)
    (multisig_create_key : Bytes32) (action : ConfigAction) : Proposal :=
  { index := index
    proposer := proposer
    multisig_create_key := multisig_create_key
    target_program_id := fun _ => 0
    target_instruction_data := []
    target_account_count := 0
    pda_seeds := []
    authorized_indices := []
    approved := [proposer]
    rejected := []
    status := ProposalStatus.Active
    config_action := some action }

/-- Method `Proposal::approve`: no-op returning `false` for a duplicate
approval; otherwise drops the member from `rejected` (`retain`) and appends it
to `approved`. -/
def Proposal.approve (p : Proposal) (member : Bytes32) : Proposal × Bool :=
  if member ∈ p.approved then (p, false)
  else
    ({ p with
        rejected := p.rejected.filter (fun r => decide (r ≠ member))
        approved := p.approved ++ [member] },
      true)

/-- Method `Proposal::reject`: no-op returning `false` for a duplicate
rejection; otherwise drops the member from `approved` (`retain`) and appends it
to `rejected`. -/
def Proposal.reject (p : Proposal) (member : Bytes32) : Proposal × Bool :=
  if member ∈ p.rejected then (p, false)
  else
    ({ p with
        approved := p.approved.filter (fun a => decide (a ≠ member))
        rejected := p.rejected ++ [member] },
      true)

/-- Method `Proposal::has_threshold`: `approved.len() >= threshold`. -/
def Proposal.has_threshold (p : Proposal) (threshold : Nat) : Prop :=
  threshold ≤ p.approved.length

instance (p : Proposal) (threshold : Nat) : Decidable (p.has_threshold threshold) :=
  inferInstanceAs (Decidable (threshold ≤ p.approved.length))

/-- Method `Proposal::is_dead`: the Rust body computes
`member_count as usize - self.rejected.len()` with an unguarded usize
subtraction, which aborts when `rejected.len() > member_count`; the embedding
makes that explicit by returning `none` exactly in the underflow case, and
otherwise `some` of `remaining < threshold`. -/
def Proposal.is_dead (p : Proposal) (threshold member_count : Nat) : Option Bool :=
  if p.rejected.length ≤ member_count then
    some (decide (member_count - p.rejected.length < threshold))
  else
    none

/-- Constructor `MultisigState::new` (`proposal_counter` starts at 0). -/
def MultisigState.new (create_key : Bytes32) (threshold : Nat)
    (members : List Bytes32) : MultisigState :=
  { create_key := create_key
    threshold := threshold
    member_count := members.length
    members := members
    transaction_index := 0 }

/-- Method `MultisigState::is_member`. -/
def MultisigState.is_member (s : MultisigState) (id : Bytes32) : Prop :=
  id ∈ s.members

instance (s : MultisigState) (id : Bytes32) : Decidable (s.is_member id) :=
  inferInstanceAs (Decidable (id ∈ s.members))

/-!
PDA seed derivations (`multisig_core/src/lib.rs`).  Each seed is a 32-byte
buffer: a 16-byte ASCII tag in positions 0..15 (zero elsewhere), XORed
byte-wise with `create_key`; the proposal seed additionally XORs the 64-bit
big-endian proposal index into bytes 24..31.
-/

/-- ASCII bytes of the 16-byte tag `"multisig_state__"`. -/
def multisig_state_tag : List Nat :=
  [109, 117, 108, 116, 105, 115, 105, 103, 95, 115, 116, 97, 116, 101, 95, 95]

/-- ASCII bytes of the 16-byte tag `"multisig_prop___"`. -/
def multisig_prop_tag : List Nat :=
  [109, 117, 108, 116, 105, 115, 105, 103, 95, 112, 114, 111, 112, 95, 95, 95]

/-- ASCII bytes of the 16-byte tag `"multisig_vault__"`. -/
def multisig_vault_tag : List Nat :=
  [109, 117, 108, 116, 105, 115, 105, 103, 95, 118, 97, 117, 108, 116, 95, 95]

/-- The 32-byte buffer holding a 16-byte tag in its first half and zeros in
its second half (the `let mut seed = [0u8; 32]` plus tag copy loop). -/
def tag_buffer (tag : List Nat) : Bytes32 :=
  fun i => if (i : Nat) < 16 then tag.getD (i : Nat) 0 else 0

/-- Function `multisig_state_pda_seed`. -/
def multisig_state_pda_seed (create_key : Bytes32) : Bytes32 :=
  fun i => tag_buffer multisig_state_tag i ^^^ create_key i

/-- Byte `b` (0 = most significant) of `proposal_index.to_be_bytes()`. -/
def u64_be_byte (idx b : Nat) : Nat :=
  idx / 256 ^ (7 - b) % 256

/-- Function `proposal_pda_seed`: tag XOR `create_key`, with the big-endian
index bytes additionally XORed into positions 24..31. -/
def proposal_pda_seed (create_key : Bytes32) (proposal_index : Nat) : Bytes32 :=
  fun i =>
    if 24 ≤ (i : Nat) then
      tag_buffer multisig_prop_tag i ^^^ create_key i ^^^
        u64_be_byte proposal_index ((i : Nat) - 24)
    else
      tag_buffer multisig_prop_tag i ^^^ create_key i

/-- Function `vault_pda_seed`. -/
def vault_pda_seed (create_key : Bytes32) : Bytes32 :=
  fun i => tag_buffer multisig_vault_tag i ^^^ create_key i

/-!
Accounts and handlers.  Handlers receive the deserialized records plus the
metadata the source actually inspects: the caller's `account_id`, its
`is_authorized` flag, and (for `CreateMultisig`) whether each supplied account
already holds data (`account != Account::default()`).
-/

/-- The slice of `nssa_core::account::AccountWithMetadata` the multisig
handlers inspect: the account id, the signer flag, and whether the account
differs from `Account::default()`. -/
structure Account where
  account_id : Bytes32
  is_authorized : Bool
  initialized : Bool
deriving DecidableEq

/-- Fallback account for `getD` lookups. -/
def default_account : Account :=
  { account_id := zero32, is_authorized := false, initialized := false }

/-- One outbound delegated-call request.  Modelled from the spec: the
`nssa_core::program::ChainedCall` type is not under `src/`; the spec's
delegated-call boundary is `{target_program identifier, opaque instruction
bytes, ordered account list with per-account privileged flag, derivation
seeds}`. -/
structure ChainedCall where
  target_program_id : ProgramId
  target_instruction_data : InstructionData
  accounts : List (Bytes32 × Bool)
  pda_seeds : List Bytes32
deriving DecidableEq

/-- Account list of a delegated-call request: the supplied target account ids
in order, where index `i` is flagged privileged exactly when `i` occurs in the
recorded `authorized_indices`. -/
def flag_authorized (ids : List Bytes32) (authorized_indices : List Nat) :
    List (Bytes32 × Bool) :=
  (List.range ids.length).map
    (fun i => (ids.getD i zero32, decide (i ∈ authorized_indices)))

/-- Handler `create_multisig::handle`, abstracted to return the
`MultisigState` record written into `accounts[0]` on success and `none` on any
`assert!` failure.  The guard order follows the source: member list nonempty,
`threshold >= 1`, `threshold <= members.len()`, `members.len() <= 10`, enough
accounts supplied, `accounts[0]` uninitialized, then each member account
uninitialized with an id matching the member list. -/
def create_multisig_handle (accounts : List Account) (create_key : Bytes32)
    (threshold : Nat) (members : List Bytes32) : Option MultisigState :=
  if members.length = 0 then none
  else if threshold < 1 then none
  else if members.length < threshold then none
  else if 10 < members.length then none
  else if accounts.length < 1 + members.length then none
  else if (accounts.getD 0 default_account).initialized = true then none
  else if ∀ i ∈ List.range members.length,
      (accounts.getD (1 + i) default_account).initialized = false ∧
      (accounts.getD (1 + i) default_account).account_id = members.getD i zero32 then
    some (MultisigState.new create_key threshold members)
  else none

/-- Handler `approve::handle`, on the deserialized records: requires the
approver to be a signer, a member, the proposal's `multisig_create_key` to
match the state's `create_key`, the proposal to be `Active`, and the vote to
be new; returns the updated proposal record written back on success. -/
def approve_handle (state : MultisigState) (approver : Account) (p : Proposal) :
    Option Proposal :=
  if approver.is_authorized = true then
    if state.is_member approver.account_id then
      if p.multisig_create_key = state.create_key then
        if p.status = ProposalStatus.Active then
          if (p.approve approver.account_id).2 = true then
            some (p.approve approver.account_id).1
          else none
        else none
      else none
    else none
  else none

/-- Handler for Reject in the final design.  Modelled from the spec: the
`reject.rs` under `src/` is the superseded embedded-proposal variant, so the
record plumbing (separate proposal record, `instance_key` back-reference
check) follows the spec's §4.4; the vote bookkeeping, the duplicate-vote
guard, and the `is_dead` auto-transition are the source's `reject.rs` lines
36-44 together with `Proposal::reject` / `Proposal::is_dead` from
`multisig_core`.  An `is_dead` underflow aborts the instruction (`none`). -/
def reject_handle (state : MultisigState) (rejector : Account) (p : Proposal) :
    Option Proposal :=
  if rejector.is_authorized = true then
    if state.is_member rejector.account_id then
      if p.multisig_create_key = state.create_key then
        if p.status = ProposalStatus.Active then
          if (p.reject rejector.account_id).2 = true then
            match (p.reject rejector.account_id).1.is_dead state.threshold state.member_count with
            | some true =>
                some { (p.reject rejector.account_id).1 with status := ProposalStatus.Rejected }
            | some false => some (p.reject rejector.account_id).1
            | none => none
          else none
        else none
      else none
    else none
  else none

/-- Post-state of a successful Execute: the (possibly mutated) multisig
record, the proposal record, and the emitted delegated-call requests. -/
structure ExecOutcome where
  state : MultisigState
  proposal : Proposal
  chained_calls : List ChainedCall
deriving DecidableEq

/-- Handler for Execute in the final design.  Modelled from the spec: the
`execute.rs` under `src/` is the superseded embedded-proposal variant, so the
record plumbing (separate proposal record, `instance_key` check, the
delegated-call branch with its `target_account_count` guard and single
emitted request) follows the spec's §4.5; the `Active` and
`has_threshold` guards are `execute.rs` lines 37-43, and the three
config-action arms (AddMember / RemoveMember / ChangeThreshold) are
`execute.rs` lines 65-89 verbatim. -/
def execute_handle (state : MultisigState) (executor : Account) (p : Proposal)
    (target_accounts : List Account) : Option ExecOutcome :=
  if executor.is_authorized = true then
    if state.is_member executor.account_id then
      if p.multisig_create_key = state.create_key then
        if p.status = ProposalStatus.Active then
          if p.has_threshold state.threshold then
            match p.config_action with
            | none =>
                if target_accounts.length = p.target_account_count then
                  some
                    { state := state
                      proposal := { p with status := ProposalStatus.Executed }
                      chained_calls :=
                        [{ target_program_id := p.target_program_id
                           target_instruction_data := p.target_instruction_data
                           accounts :=
                             flag_authorized (target_accounts.map Account.account_id)
                               p.authorized_indices
                           pda_seeds := p.pda_seeds }] }
                else none
            | some (ConfigAction.AddMember new_member) =>
                if state.is_member new_member then none
                else if state.members.length < 10 then
                  some
                    { state :=
                        { state with
                            members := state.members ++ [new_member]
                            member_count := (state.members ++ [new_member]).length }
                      proposal := { p with status := ProposalStatus.Executed }
                      chained_calls := [] }
                else none
            | some (ConfigAction.RemoveMember member) =>
                if state.is_member member then
                  if state.threshold ≤ (state.members.filter (fun x => decide (x ≠ member))).length then
                    some
                      { state :=
                          { state with
                              members := state.members.filter (fun x => decide (x ≠ member))
                              member_count :=
                                (state.members.filter (fun x => decide (x ≠ member))).length }
                        proposal := { p with status := ProposalStatus.Executed }
                        chained_calls := [] }
                  else none
                else none
            | some (ConfigAction.ChangeThreshold new_threshold) =>
                if 1 ≤ new_threshold then
                  if new_threshold ≤ state.members.length then
                    some
                      { state := { state with threshold := new_threshold }
                        proposal := { p with status := ProposalStatus.Executed }
                        chained_calls := [] }
                  else none
                else none
          else none
        else none
      else none
    else none
  else none

/-- The MultisigState bounds invariant from the spec:
`1 ≤ threshold ≤ member_count ≤ 10` with `member_count = members.len()`. -/
def StateInv (s : MultisigState) : Prop :=
  1 ≤ s.threshold ∧ s.threshold ≤ s.member_count ∧ s.member_count ≤ 10 ∧
  s.member_count = s.members.length

instance (s : MultisigState) : Decidable (StateInv s) :=
  inferInstanceAs (Decidable (_ ∧ _ ∧ _ ∧ _))

/-- Vote-set disjointness: no identity occurs in both `approved` and
`rejected`. -/
def VotesDisjoint (p : Proposal) : Prop :=
  ∀ x ∈ p.approved, x ∉ p.rejected

instance (p : Proposal) : Decidable (VotesDisjoint p) :=
  inferInstanceAs (Decidable (∀ x ∈ p.approved, x ∉ p.rejected))

/-- Well-formedness of the account list handed to `create_multisig::handle`:
enough accounts, state account uninitialized, every member account
uninitialized with an id matching the member list.  These are exactly the
handler's non-bound guards. -/
def create_accounts_ok (accounts : List Account) (members : List Bytes32) : Prop :=
  ¬ accounts.length < 1 + members.length ∧
  ¬ (accounts.getD 0 default_account).initialized = true ∧
  (∀ i ∈ List.range members.length,
      (accounts.getD (1 + i) default_account).initialized = false ∧
      (accounts.getD (1 + i) default_account).account_id = members.getD i zero32)

/-!
Concrete values used by the witness theorems.
-/

/-- Example member identity 1. -/
def ex_m1 : Bytes32 := fun _ => 1

/-- Example member identity 2. -/
def ex_m2 : Bytes32 := fun _ => 2

/-- Example member identity 3. -/
def ex_m3 : Bytes32 := fun _ => 3

/-- Example instance key. -/
def ex_key : Bytes32 := fun _ => 7

/-- A different example instance key. -/
def ex_key2 : Bytes32 := fun _ => 9

/-- An authorized, uninitialized caller account with the given id. -/
def ex_acct (id : Bytes32) : Account :=
  { account_id := id, is_authorized := true, initialized := false }

/-- Example 2-of-3 multisig state. -/
def ex_state : MultisigState := MultisigState.new ex_key 2 [ex_m1, ex_m2, ex_m3]

/-- Example 1-of-3 multisig state. -/
def ex_state1 : MultisigState := MultisigState.new ex_key 1 [ex_m1, ex_m2, ex_m3]

/-- Example account list for `create_multisig_handle`. -/
def ex_accounts : List Account :=
  [ex_acct ex_key, ex_acct ex_m1, ex_acct ex_m2, ex_acct ex_m3]

/-- Example delegated-call proposal by member 1. -/
def ex_prop_delegated : Proposal :=
  Proposal.new 1 ex_m1 ex_key (fun _ => 42) [5] 1 [ex_key] [0]

/-- Example config-change proposal with two approvals. -/
def ex_cfg_prop : Proposal :=
  { Proposal.new_config 1 ex_m1 ex_key (ConfigAction.ChangeThreshold 3) with
      approved := [ex_m1, ex_m2] }

/-- Example proposal after one rejection by member 2 (2-of-3 scenario). -/
def ex_prop_after_r1 : Proposal :=
  { Proposal.new_config 1 ex_m1 ex_key (ConfigAction.ChangeThreshold 3) with
      rejected := [ex_m2] }

/-- Example proposal whose instance key differs from `ex_state`'s. -/
def ex_prop_foreign : Proposal :=
  Proposal.new 1 ex_m1 ex_key2 (fun _ => 42) [5] 1 [ex_key2] [0]

/-!
Helper lemmas.
-/

/-- XOR with a fixed right operand is injective on naturals. -/
theorem xor_right_cancel (a b k : Nat) (h : a ^^^ k = b ^^^ k) : a = b := by
  have h2 : (a ^^^ k) ^^^ k = (b ^^^ k) ^^^ k := by rw [h]
  simpa [Nat.xor_assoc, Nat.xor_self, Nat.xor_zero] using h2

/-- XOR with a fixed left operand is injective on naturals. -/
theorem xor_left_cancel (a b k : Nat) (h : k ^^^ a = k ^^^ b) : a = b := by
  have h2 : k ^^^ (k ^^^ a) = k ^^^ (k ^^^ b) := by rw [h]
  simpa [← Nat.xor_assoc, Nat.xor_self, Nat.zero_xor] using h2

/-- A u64 is determined by its eight big-endian bytes. -/
theorem u64_be_bytes_inj (i j : Nat) (hi : i < 2 ^ 64) (hj : j < 2 ^ 64)
    (h : ∀ b < 8, u64_be_byte i b = u64_be_byte j b) : i = j := by
  have h0 := h 0 (by omega)
  have h1 := h 1 (by omega)
  have h2 := h 2 (by omega)
  have h3 := h 3 (by omega)
  have h4 := h 4 (by omega)
  have h5 := h 5 (by omega)
  have h6 := h 6 (by omega)
  have h7 := h 7 (by omega)
  simp only [u64_be_byte] at h0 h1 h2 h3 h4 h5 h6 h7
  norm_num at h0 h1 h2 h3 h4 h5 h6 h7 hi hj
  omega

/-- C9: the seed derivations are deterministic functions; proposal seeds are
injective in the u64 index for a fixed key; and for every key and index the
state, proposal, and vault seeds are pairwise distinct because their 16-byte
tags differ. -/
theorem pda_seed_determinism_and_distinctness (k : Bytes32) (i j : Nat)
    (hi : i < 2 ^ 64) (hj : j < 2 ^ 64) (hij : i ≠ j) :
    multisig_state_pda_seed k = multisig_state_pda_seed k ∧
    proposal_pda_seed k i ≠ proposal_pda_seed k j ∧
    multisig_state_pda_seed k ≠ proposal_pda_seed k i ∧
    multisig_state_pda_seed k ≠ vault_pda_seed k ∧
    proposal_pda_seed k i ≠ vault_pda_seed k := by
  refine ⟨rfl, ?_, ?_, ?_, ?_⟩
  · intro h
    apply hij
    apply u64_be_bytes_inj i j hi hj
    intro b hb
    have h32 : 24 + b < 32 := by omega
    have hc := congrFun h (⟨24 + b, h32⟩ : Fin 32)
    simp only [proposal_pda_seed, tag_buffer] at hc
    simp only [show 24 ≤ 24 + b from by omega, show ¬ 24 + b < 16 from by omega,
      if_true, if_false, ite_true, ite_false, Nat.add_sub_cancel_left,
      Nat.zero_xor] at hc
    exact xor_left_cancel _ _ _ hc
  · intro h
    have h9 : (115 : Nat) ^^^ k ⟨9, by omega⟩ = 112 ^^^ k ⟨9, by omega⟩ :=
      congrFun h ⟨9, by omega⟩
    have := xor_right_cancel _ _ _ h9
    omega
  · intro h
    have h9 : (115 : Nat) ^^^ k ⟨9, by omega⟩ = 118 ^^^ k ⟨9, by omega⟩ :=
      congrFun h ⟨9, by omega⟩
    have := xor_right_cancel _ _ _ h9
    omega
  · intro h
    have h9 : (112 : Nat) ^^^ k ⟨9, by omega⟩ = 118 ^^^ k ⟨9, by omega⟩ :=
      congrFun h ⟨9, by omega⟩
    have := xor_right_cancel _ _ _ h9
    omega

/-- Witness for C9 at the zero key and indices 0 and 1. -/
theorem pda_seed_determinism_and_distinctness_witness :
    multisig_state_pda_seed zero32 = multisig_state_pda_seed zero32 ∧
    proposal_pda_seed zero32 0 ≠ proposal_pda_seed zero32 1 ∧
    multisig_state_pda_seed zero32 ≠ proposal_pda_seed zero32 0 ∧
    multisig_state_pda_seed zero32 ≠ vault_pda_seed zero32 ∧
    proposal_pda_seed zero32 0 ≠ vault_pda_seed zero32 :=
  pda_seed_determinism_and_distinctness zero32 0 1 (by norm_num) (by norm_num)
    (by norm_num)

/-- C10: under the hidden precondition `rejected.len() ≤ member_count`, the
unguarded subtraction in `Proposal::is_dead` cannot underflow, so `is_dead`
(and hence the auto-rejection step of Reject that calls it) returns a result. -/
theorem is_dead_total_under_bound (threshold member_count : Nat) (p : Proposal)
    (h : p.rejected.length ≤ member_count) :
    p.is_dead threshold member_count =
      some (decide (member_count - p.rejected.length < threshold)) ∧
    (p.is_dead threshold member_count).isSome = true := by
  simp [Proposal.is_dead, h]

/-- Witness for C10 on a concrete proposal with one rejection among three
members. -/
theorem is_dead_total_under_bound_witness :
    ex_prop_after_r1.is_dead 2 3 =
      some (decide (3 - ex_prop_after_r1.rejected.length < 2)) ∧
    (ex_prop_after_r1.is_dead 2 3).isSome = true :=
  is_dead_total_under_bound 2 3 ex_prop_after_r1 (by decide)

/-- C5: if `approved` and `rejected` are disjoint, they stay disjoint after
any `Proposal::approve` or `Proposal::reject`, and a vote flip lands the
member in `approved` and out of `rejected`. -/
theorem approved_rejected_stay_disjoint (p : Proposal) (m : Bytes32)
    (hd : VotesDisjoint p) :
    VotesDisjoint (p.approve m).1 ∧ VotesDisjoint (p.reject m).1 ∧
    (m ∉ p.approved →
      m ∈ (p.approve m).1.approved ∧ m ∉ (p.approve m).1.rejected) := by
  refine ⟨?_, ?_, ?_⟩
  · intro x hx
    by_cases hm : m ∈ p.approved
    · simp only [Proposal.approve, hm, if_true, ite_true] at hx ⊢
      exact hd x hx
    · simp only [Proposal.approve, hm, if_false, ite_false, List.mem_append,
        List.mem_singleton] at hx ⊢
      intro hr
      rw [List.mem_filter] at hr
      rcases hx with hx | rfl
      · exact hd x hx hr.1
      · simp at hr
  · intro x hx
    by_cases hm : m ∈ p.rejected
    · simp only [Proposal.reject, hm, if_true, ite_true] at hx ⊢
      exact hd x hx
    · simp only [Proposal.reject, hm, if_false, ite_false] at hx ⊢
      rw [List.mem_filter] at hx
      simp only [List.mem_append, List.mem_singleton]
      rintro (hr | rfl)
      · exact hd x hx.1 hr
      · simp at hx
  · intro hm
    simp [Proposal.approve, hm, List.mem_filter]

/-- Witness for C5 on a concrete proposal with disjoint vote lists. -/
theorem approved_rejected_stay_disjoint_witness :
    VotesDisjoint (ex_prop_after_r1.approve ex_m3).1 ∧
    VotesDisjoint (ex_prop_after_r1.reject ex_m3).1 ∧
    (ex_m3 ∉ ex_prop_after_r1.approved →
      ex_m3 ∈ (ex_prop_after_r1.approve ex_m3).1.approved ∧
      ex_m3 ∉ (ex_prop_after_r1.approve ex_m3).1.rejected) :=
  approved_rejected_stay_disjoint ex_prop_after_r1 ex_m3 (by decide)

/-- C6: on an Active proposal of the right multisig, a duplicate Approve by a
member fails with no write, otherwise Approve removes the voter from
`rejected` and appends it to `approved`; Reject behaves symmetrically. -/
theorem duplicate_vote_fails_flip_succeeds (state : MultisigState) (voter : Account)
    (p : Proposal) (hauth : voter.is_authorized = true)
    (hm : state.is_member voter.account_id)
    (hk : p.multisig_create_key = state.create_key)
    (hA : p.status = ProposalStatus.Active) :
    (voter.account_id ∈ p.approved → approve_handle state voter p = none) ∧
    (voter.account_id ∉ p.approved →
      approve_handle state voter p =
        some { p with
                 approved := p.approved ++ [voter.account_id]
                 rejected := p.rejected.filter (fun r => decide (r ≠ voter.account_id)) }) ∧
    (voter.account_id ∈ p.rejected → reject_handle state voter p = none) ∧
    (voter.account_id ∉ p.rejected → p.rejected.length + 1 ≤ state.member_count →
      ∀ q, reject_handle state voter p = some q →
        q.approved = p.approved.filter (fun a => decide (a ≠ voter.account_id)) ∧
        q.rejected = p.rejected ++ [voter.account_id]) := by
  refine ⟨?_, ?_, ?_, ?_⟩
  · intro hdup
    simp [approve_handle, hauth, hm, hk, hA, Proposal.approve, hdup]
  · intro hdup
    simp [approve_handle, hauth, hm, hk, hA, Proposal.approve, hdup]
  · intro hdup
    simp [reject_handle, hauth, hm, hk, hA, Proposal.reject, hdup]
  · intro hnew hcnt q hq
    by_cases hdead :
        state.member_count - (p.rejected.length + 1) < state.threshold
    · simp [reject_handle, hauth, hm, hk, hA, Proposal.reject, hnew,
        Proposal.is_dead, hcnt, hdead] at hq
      subst hq
      constructor <;> simp
    · simp [reject_handle, hauth, hm, hk, hA, Proposal.reject, hnew,
        Proposal.is_dead, hcnt, hdead] at hq
      subst hq
      constructor <;> simp

/-- Witness for C6: member 1 has already approved `ex_prop_delegated`, so a
second Approve fails. -/
theorem duplicate_vote_fails_flip_succeeds_witness :
    approve_handle ex_state (ex_acct ex_m1) ex_prop_delegated = none :=
  (duplicate_vote_fails_flip_succeeds ex_state (ex_acct ex_m1) ex_prop_delegated
    rfl (by decide) rfl rfl).1 (by decide)

/-- C7: when a proposal's stored `multisig_create_key` differs from the
supplied MultisigState's `create_key`, Approve, Reject and Execute all fail
with no state change. -/
theorem instance_key_mismatch_fails (state : MultisigState) (caller : Account)
    (p : Proposal) (target_accounts : List Account)
    (hk : p.multisig_create_key ≠ state.create_key) :
    approve_handle state caller p = none ∧
    reject_handle state caller p = none ∧
    execute_handle state caller p target_accounts = none := by
  refine ⟨?_, ?_, ?_⟩ <;>
    simp [approve_handle, reject_handle, execute_handle, hk]

/-- Witness for C7: a proposal carrying `ex_key2` against a multisig created
with `ex_key`. -/
theorem instance_key_mismatch_fails_witness :
    approve_handle ex_state (ex_acct ex_m1) ex_prop_foreign = none ∧
    reject_handle ex_state (ex_acct ex_m1) ex_prop_foreign = none ∧
    execute_handle ex_state (ex_acct ex_m1) ex_prop_foreign [] = none :=
  instance_key_mismatch_fails ex_state (ex_acct ex_m1) ex_prop_foreign []
    (by decide)

/-- C4: a successful Reject auto-transitions the proposal to `Rejected`
exactly when `member_count - rejected.len() < threshold` after the new
rejection is recorded, and otherwise leaves the status as it was (`Active`). -/
theorem reject_auto_marks_dead_proposal (state : MultisigState) (rejector : Account)
    (p : Proposal) (hauth : rejector.is_authorized = true)
    (hm : state.is_member rejector.account_id)
    (hk : p.multisig_create_key = state.create_key)
    (hA : p.status = ProposalStatus.Active)
    (hnew : rejector.account_id ∉ p.rejected)
    (hcnt : p.rejected.length + 1 ≤ state.member_count) :
    reject_handle state rejector p =
      some
        (if state.member_count - (p.rejected.length + 1) < state.threshold then
          { (p.reject rejector.account_id).1 with status := ProposalStatus.Rejected }
        else
          (p.reject rejector.account_id).1) ∧
    ((p.reject rejector.account_id).1).status = p.status := by
  constructor
  · by_cases hdead :
        state.member_count - (p.rejected.length + 1) < state.threshold
    · simp [reject_handle, hauth, hm, hk, hA, Proposal.reject, hnew,
        Proposal.is_dead, hcnt, hdead]
    · simp [reject_handle, hauth, hm, hk, hA, Proposal.reject, hnew,
        Proposal.is_dead, hcnt, hdead]
  · simp [Proposal.reject, hnew]

/-- Witness for C4, realizing the spec's scenario: threshold 2, three members,
member 2 has already rejected; after member 3's Reject only one possible
approver remains, so the proposal ends `Rejected`. -/
theorem reject_auto_marks_dead_proposal_witness :
    reject_handle ex_state (ex_acct ex_m3) ex_prop_after_r1 =
      some
        (if ex_state.member_count - (ex_prop_after_r1.rejected.length + 1) <
            ex_state.threshold then
          { (ex_prop_after_r1.reject (ex_acct ex_m3).account_id).1 with
              status := ProposalStatus.Rejected }
        else
          (ex_prop_after_r1.reject (ex_acct ex_m3).account_id).1) ∧
    ((ex_prop_after_r1.reject (ex_acct ex_m3).account_id).1).status =
      ex_prop_after_r1.status :=
  reject_auto_marks_dead_proposal ex_state (ex_acct ex_m3) ex_prop_after_r1
    rfl (by decide) rfl rfl (by decide) (by decide)

/-- C2: Execute succeeds only on an Active proposal with
`approved.len() >= threshold`, and whenever `approved.len() < threshold` it
fails outright, producing no post-state and no delegated-call request. -/
theorem execute_requires_active_and_threshold (state : MultisigState)
    (executor : Account) (p : Proposal) (target_accounts : List Account) :
    (∀ r, execute_handle state executor p target_accounts = some r →
      p.status = ProposalStatus.Active ∧ state.threshold ≤ p.approved.length) ∧
    (p.approved.length < state.threshold →
      execute_handle state executor p target_accounts = none) := by
  constructor
  · intro r hr
    constructor
    · by_cases hA : p.status = ProposalStatus.Active
      · exact hA
      · simp [execute_handle, hA] at hr
    · by_cases ht : state.threshold ≤ p.approved.length
      · exact ht
      · simp [execute_handle, Proposal.has_threshold, ht] at hr
  · intro hlt
    have ht : ¬ p.has_threshold state.threshold := by
      simp only [Proposal.has_threshold]
      omega
    simp [execute_handle, ht]

/-- Witness for C2: only the auto-approving proposer has approved while the
threshold is 2, so Execute fails. -/
theorem execute_requires_active_and_threshold_witness :
    execute_handle ex_state (ex_acct ex_m1) ex_prop_delegated [ex_acct ex_key] =
      none :=
  (execute_requires_active_and_threshold ex_state (ex_acct ex_m1)
    ex_prop_delegated [ex_acct ex_key]).2 (by decide)

/-- C3: on a delegated-call proposal with sufficient approvals, Execute marks
the proposal `Executed`, leaves the multisig record untouched, and emits
exactly one delegated-call request carrying the recorded target program,
instruction bytes, derivation seeds, and the supplied accounts flagged
privileged at the recorded `authorized_indices`; it fails whenever the number
of supplied target accounts differs from the recorded `target_account_count`. -/
theorem execute_delegated_call_emission (state : MultisigState)
    (executor : Account) (p : Proposal) (target_accounts : List Account)
    (hauth : executor.is_authorized = true)
    (hm : state.is_member executor.account_id)
    (hk : p.multisig_create_key = state.create_key)
    (hA : p.status = ProposalStatus.Active)
    (ht : state.threshold ≤ p.approved.length)
    (hc : p.config_action = none) :
    (target_accounts.length = p.target_account_count →
      execute_handle state executor p target_accounts =
        some
          { state := state
            proposal := { p with status := ProposalStatus.Executed }
            chained_calls :=
              [{ target_program_id := p.target_program_id
                 target_instruction_data := p.target_instruction_data
                 accounts :=
                   flag_authorized (target_accounts.map Account.account_id)
                     p.authorized_indices
                 pda_seeds := p.pda_seeds }] }) ∧
    (target_accounts.length ≠ p.target_account_count →
      execute_handle state executor p target_accounts = none) := by
  constructor
  · intro hlen
    simp [execute_handle, hauth, hm, hk, hA, Proposal.has_threshold, ht, hc, hlen]
  · intro hlen
    simp [execute_handle, hauth, hm, hk, hA, Proposal.has_threshold, ht, hc, hlen]

/-- Witness for C3: a 1-of-3 multisig executes a delegated-call proposal with
one target account, emitting the single recorded request. -/
theorem execute_delegated_call_emission_witness :
    execute_handle ex_state1 (ex_acct ex_m1) ex_prop_delegated [ex_acct ex_key] =
      some
        { state := ex_state1
          proposal := { ex_prop_delegated with status := ProposalStatus.Executed }
          chained_calls :=
            [{ target_program_id := ex_prop_delegated.target_program_id
               target_instruction_data := ex_prop_delegated.target_instruction_data
               accounts :=
                 flag_authorized ([ex_acct ex_key].map Account.account_id)
                   ex_prop_delegated.authorized_indices
               pda_seeds := ex_prop_delegated.pda_seeds }] } :=
  (execute_delegated_call_emission ex_state1 (ex_acct ex_m1) ex_prop_delegated
    [ex_acct ex_key] rfl (by decide) rfl rfl (by decide) rfl).1 rfl

/-- C1: every state-mutating operation — CreateMultisig establishing the
record, and Execute of an AddMember / RemoveMember / ChangeThreshold config
action — preserves `1 ≤ threshold ≤ member_count ≤ 10` with
`member_count = members.len()`. -/
theorem threshold_member_invariant_preserved :
    (∀ accounts create_key threshold members s,
        create_multisig_handle accounts create_key threshold members = some s →
        StateInv s) ∧
    (∀ state executor p target_accounts r,
        StateInv state →
        execute_handle state executor p target_accounts = some r →
        StateInv r.state) := by
  constructor
  · intro accounts ck t ms s h
    simp only [create_multisig_handle] at h
    split_ifs at h with h1 h2 h3 h4 h5 h6 h7 <;> try exact Option.noConfusion h
    have hs := Option.some.inj h
    subst hs
    simp only [StateInv, MultisigState.new]
    refine ⟨by omega, by omega, by omega, by trivial⟩
  · intro state executor p target_accounts r hInv h
    obtain ⟨i1, i2, i3, i4⟩ := hInv
    rcases hcp : p.config_action with _ | action
    · simp only [execute_handle, hcp] at h
      split_ifs at h <;> try exact Option.noConfusion h
      have hs := Option.some.inj h
      subst hs
      exact ⟨i1, i2, i3, i4⟩
    · rcases action with nm | m | t'
      · simp only [execute_handle, hcp] at h
        split_ifs at h with g1 g2 g3 g4 g5 g6 g7 <;> try exact Option.noConfusion h
        have hs := Option.some.inj h
        subst hs
        simp only [StateInv]
        refine ⟨i1, ?_, ?_, by trivial⟩ <;>
          · simp only [List.length_append, List.length_cons, List.length_nil]
            omega
      · simp only [execute_handle, hcp] at h
        split_ifs at h with g1 g2 g3 g4 g5 g6 g7 <;> try exact Option.noConfusion h
        have hs := Option.some.inj h
        subst hs
        have hle :=
          List.length_filter_le (fun x => decide (x ≠ m)) state.members
        simp only [StateInv]
        refine ⟨i1, g7, by omega, by trivial⟩
      · simp only [execute_handle, hcp] at h
        split_ifs at h with g1 g2 g3 g4 g5 g6 g7 <;> try exact Option.noConfusion h
        have hs := Option.some.inj h
        subst hs
        simp only [StateInv]
        refine ⟨g6, by omega, i3, i4⟩

/-- Witness for C1: the created 2-of-3 state satisfies the invariant, and so
does the state after executing a ChangeThreshold(3) proposal on it. -/
theorem threshold_member_invariant_preserved_witness :
    StateInv (MultisigState.new ex_key 2 [ex_m1, ex_m2, ex_m3]) ∧
    StateInv ({ ex_state with threshold := 3 } : MultisigState) :=
  ⟨threshold_member_invariant_preserved.1 ex_accounts ex_key 2
      [ex_m1, ex_m2, ex_m3] _ (by decide),
   threshold_member_invariant_preserved.2 ex_state (ex_acct ex_m1) ex_cfg_prop []
      { state := { ex_state with threshold := 3 }
        proposal := { ex_cfg_prop with status := ProposalStatus.Executed }
        chained_calls := [] } (by decide) (by decide)⟩

/-- C8: with a well-formed account list, CreateMultisig succeeds iff
`1 ≤ threshold ≤ members.len() ≤ 10`; on any bound violation it fails
regardless of the accounts; and on success it writes exactly the fresh
`MultisigState` with `proposal_counter = 0`. -/
theorem create_multisig_iff_bounds (accounts : List Account) (create_key : Bytes32)
    (threshold : Nat) (members : List Bytes32) :
    (create_accounts_ok accounts members →
      ((∃ s, create_multisig_handle accounts create_key threshold members = some s) ↔
        (1 ≤ threshold ∧ threshold ≤ members.length ∧ members.length ≤ 10))) ∧
    (¬ (1 ≤ threshold ∧ threshold ≤ members.length ∧ members.length ≤ 10) →
      create_multisig_handle accounts create_key threshold members = none) ∧
    (∀ s, create_multisig_handle accounts create_key threshold members = some s →
      s = MultisigState.new create_key threshold members ∧
      s.transaction_index = 0) := by
  refine ⟨?_, ?_, ?_⟩
  · rintro ⟨w1, w2, w3⟩
    constructor
    · rintro ⟨s, hs⟩
      simp only [create_multisig_handle] at hs
      split_ifs at hs with h1 h2 h3 h4 h5 h6 h7 <;> try exact Option.noConfusion hs
      omega
    · intro hb
      refine ⟨MultisigState.new create_key threshold members, ?_⟩
      simp only [create_multisig_handle]
      rw [if_neg (by omega), if_neg (by omega), if_neg (by omega),
        if_neg (by omega), if_neg w1, if_neg w2, if_pos w3]
  · intro hb
    simp only [create_multisig_handle]
    split_ifs with h1 h2 h3 h4 h5 h6 h7 <;> try rfl
    omega
  · intro s hs
    simp only [create_multisig_handle] at hs
    split_ifs at hs <;> try exact Option.noConfusion hs
    have h := Option.some.inj hs
    subst h
    exact ⟨rfl, rfl⟩

/-- Witness for C8: a zero threshold violates the bounds, so CreateMultisig
fails even on a well-formed account list. -/
theorem create_multisig_iff_bounds_witness :
    create_multisig_handle ex_accounts ex_key 0 [ex_m1] = none :=
  (create_multisig_iff_bounds ex_accounts ex_key 0 [ex_m1]).2.1 (by decide)

end Multisig
